import Mathlib

set_option maxRecDepth 4000

/-!
Shallow embedding of the resume-screening core of this repository:
`keyword_matcher.py` (text normalization and keyword matching) and
`resume_screener.py` (the two-node screening workflow and its caller-facing
`screen`).  The spaCy language model loaded by `keyword_matcher.py` is an
external resource; it is abstracted as a parameter (`NLP`) supplying the
cleaned lemma stream that `preprocess_text` joins.  Python string
primitives (`lower`, `strip`, `split`, `int(...)`) are modelled explicitly
on character lists so that every definition evaluates inside the kernel.
-/

/-- JSON values as decoded by `json.loads` from the external model's text.
JSON numbers are modelled as integers (every claim involves only integral
scores); booleans and `null` are kept because Python's `int(...)` treats
them specially. -/
inductive JValue where
  | null : JValue
  | bool : Bool → JValue
  | num : Int → JValue
  | str : String → JValue
  | arr : List JValue → JValue
  | obj : List (String × JValue) → JValue

/-- `d.get(k, default)` on a decoded JSON object's field list (keys are
assumed distinct, as `json.loads` keeps a single value per key). -/
def jFindD (fs : List (String × JValue)) (k : String) (d : JValue) : JValue :=
  match fs.find? (fun p => p.1 == k) with
  | some p => p.2
  | none => d

/-- Value of a nonempty all-digit character list. -/
def digitsVal (cs : List Char) : Option Nat :=
  if cs ≠ [] ∧ cs.all Char.isDigit then
    some (cs.foldl (fun acc c => 10 * acc + (c.toNat - 48)) 0)
  else none

/-- Python `.lower()` (ASCII model, which covers the processed keywords and
sentinel appearing in the source). -/
def pyLower (s : String) : String := String.mk (s.data.map Char.toLower)

/-- Python `.strip()`: drop whitespace from both ends. -/
def pyStrip (s : String) : String :=
  String.mk (((s.data.dropWhile Char.isWhitespace).reverse.dropWhile
    Char.isWhitespace).reverse)

/-- Python `int(s)` on a string: optional sign around decimal digits, with
surrounding whitespace stripped (digit-group underscores are not
modelled). -/
def pyStrToInt (s : String) : Option Int :=
  match (pyStrip s).data with
  | '+' :: rest => (digitsVal rest).map (fun n => (n : Int))
  | '-' :: rest => (digitsVal rest).map (fun n => -(n : Int))
  | cs => (digitsVal cs).map (fun n => (n : Int))

/-- Python `int(x)` on a JSON-decoded value: ints pass through, booleans
become 0/1, numeric strings parse; `None`, lists and dicts raise
`TypeError`, and non-numeric strings raise `ValueError` — the source
catches both and substitutes `None`, so the model returns `none`. -/
def pyIntCoerce : JValue → Option Int
  | JValue.num n => some n
  | JValue.bool b => some (if b then 1 else 0)
  | JValue.str s => pyStrToInt s
  | _ => none

/-- Regex word character (the `\w` class, ASCII model): letters, digits,
underscore. -/
def isWordChar (c : Char) : Bool := c.isAlphanum || c = '_'

/-- The character at index `i` is a word character (`false` out of range). -/
def wordCharAt (t : List Char) (i : Nat) : Bool :=
  match t[i]? with
  | some c => isWordChar c
  | none => false

/-- `\b` holds at position `i` of `t`: the wordness of the character before
`i` differs from the wordness of the character at `i` (positions outside the
text count as non-word). -/
def boundaryAt (t : List Char) (i : Nat) : Bool :=
  (if i = 0 then false else wordCharAt t (i - 1)) != wordCharAt t i

/-- The literal `pat` occurs at position `i` of `t`. -/
def matchAt (pat t : List Char) (i : Nat) : Bool :=
  (t.drop i).take pat.length == pat

/-- `re.search` of the pattern `r'\b' + re.escape(pat) + r'\b'` in `t`: the
escaped pattern matches `pat` literally, so a match is an occurrence of
`pat` with word boundaries on both sides. -/
def reSearchB (pat t : List Char) : Bool :=
  (List.range (t.length + 1)).any (fun i =>
    matchAt pat t i && boundaryAt t i && boundaryAt t (i + pat.length))

/-- String-level wrapper for the word-boundary search. -/
def reSearchWord (pat text : String) : Bool := reSearchB pat.data text.data

/-- Helper for `pySplit`: split on whitespace runs, dropping empty pieces.
The second argument accumulates the current (reversed) token. -/
def splitWsAux : List Char → List Char → List (List Char)
  | [], [] => []
  | [], cur => [cur.reverse]
  | c :: rest, cur =>
      if c.isWhitespace then
        if cur = [] then splitWsAux rest []
        else cur.reverse :: splitWsAux rest []
      else splitWsAux rest (c :: cur)

/-- Python `s.split()` with no separator argument: split on runs of
whitespace and drop empty pieces. -/
def pySplit (s : String) : List String :=
  (splitWsAux s.data []).map (fun l => String.mk l)

/-- Join a list of strings with single spaces (`" ".join(...)`). -/
def joinSpaces : List String → String
  | [] => ""
  | [s] => s
  | s :: rest => s ++ " " ++ joinSpaces rest

/-- The external spaCy pipeline (`spacy.load("en_core_web_sm")`),
abstracted: `cleanLemmas text` is `[token.lemma_ for token in nlp(text) if
not token.is_stop and not token.is_punct]`. -/
structure NLP where
  cleanLemmas : String → List String

/-- `preprocess_text` of `keyword_matcher.py`: lowercase, run the pipeline,
join the surviving lemmas with single spaces, strip, and substitute the
sentinel when the result is empty. -/
def preprocess_text (M : NLP) (text : String) : String :=
  let processed := pyStrip (joinSpaces (M.cleanLemmas (pyLower text)))
  if processed = "" then "EMPTY_PROCESSED_STRING" else processed

/-- Per-keyword processing inside `match_keywords`: a keyword that
`str.split()` cuts into more than one token is run through
`preprocess_text`; any other keyword is only lowercased and stripped. -/
def processKeyword (M : NLP) (kw : String) : String :=
  if (pySplit kw).length > 1 then preprocess_text M kw
  else pyStrip (pyLower kw)

/-- The preliminary-decision chain at the end of `match_keywords`.  The
source compares `len(keywords_found)` against `len(keywords) * 0.3` and
`len(keywords) * 0.6` in IEEE double precision; for natural-number operands
of list-length size those comparisons coincide with the exact rational
thresholds embedded here, because the rounded products of an integer with
the doubles nearest 0.3 and 0.6 (both slightly below the exact values)
never cross an integer, so they are modelled as `10 * found < 3 * total`
and `10 * found ≥ 6 * total`. -/
def initialDecisionOf (found total : Nat) : String :=
  if found = 0 then "FAIL - No keywords matched"
  else if 10 * found < 3 * total then "WEAK - Low keyword match rate"
  else if 10 * found ≥ 6 * total then "STRONG - High keyword match rate"
  else "MODERATE - Moderate keyword match rate"

/-- Whether `match_keywords` counts `kw` as found in `processedResume`:
process the keyword, skip it when the processed form is empty or the
sentinel, otherwise run the word-boundary search. -/
def keywordHit (M : NLP) (processedResume : String) (kw : String) : Bool :=
  let pk := processKeyword M kw
  if pk = "" ∨ pk = "EMPTY_PROCESSED_STRING" then false
  else reSearchWord pk processedResume

/-- `match_keywords` of `keyword_matcher.py`: preprocess the resume once,
collect (in input order) the original keywords whose processed form is
found, and classify the match count. -/
def match_keywords (M : NLP) (resume_text : String) (keywords : List String) :
    List String × String :=
  let processed_resume := preprocess_text M resume_text
  let keywords_found := keywords.filter (keywordHit M processed_resume)
  (keywords_found, initialDecisionOf keywords_found.length keywords.length)

/-- A concrete pipeline instance used to evaluate the development on closed
inputs: whitespace tokenization, no stopwords, identity lemmas. -/
def idNLP : NLP := ⟨fun s => pySplit s⟩

/-- A concrete pipeline instance whose lemmatizer maps "running" to "run"
(as an English lemmatizer does), used to separate the two keyword-processing
branches observably. -/
def lemNLP : NLP :=
  ⟨fun s => (pySplit s).map (fun w => if w = "running" then "run" else w)⟩

/-- `ResumeScreeningState` of `resume_screener.py`.  The loosely typed
fields filled from the model's JSON (`decision`, `evaluation_summary`,
`requirements_met`, `requirements_missing`) are carried as `JValue`; the
initial state gives them their Python initializers (empty strings and empty
lists). -/
structure ScreeningState where
  all_keywords : List String
  resume_text : String
  job_description_text : String
  matching_keywords : List String
  initial_decision : String
  decision : JValue
  evaluation_summary : JValue
  requirements_met : JValue
  requirements_missing : JValue
  overall_score : Option Int
  error : String

/-- A dict returned by a LangGraph node: every state key is either absent
(`none`) or written.  The source's nodes return dict literals; which keys
those literals carry is exactly what the frame claims are about. -/
structure NodeUpdate where
  all_keywords : Option (List String)
  resume_text : Option String
  job_description_text : Option String
  matching_keywords : Option (List String)
  initial_decision : Option String
  decision : Option JValue
  evaluation_summary : Option JValue
  requirements_met : Option JValue
  requirements_missing : Option JValue
  overall_score : Option (Option Int)
  error : Option String

/-- The empty dict `{}`. -/
def NodeUpdate.empty : NodeUpdate :=
  ⟨none, none, none, none, none, none, none, none, none, none, none⟩

/-- The dict literal returned from a node's exception handler. -/
def NodeUpdate.ofError (e : String) : NodeUpdate :=
  ⟨none, none, none, none, none, none, none, none, none, none, some e⟩

/-- The dict literal returned by a successful `match_keywords_node`. -/
def NodeUpdate.ofMatch (mk : List String) (d : String) : NodeUpdate :=
  ⟨none, none, none, some mk, some d, none, none, none, none, none, none⟩

/-- The dict literal returned by `evaluate_candidate_node` after handling
the model response. -/
def NodeUpdate.ofEval (d s met missing : JValue) (score : Option Int) :
    NodeUpdate :=
  ⟨none, none, none, none, none, some d, some s, some met, some missing,
   some score, none⟩

/-- LangGraph's default state merge: keys present in the returned dict
overwrite the corresponding state entries. -/
def applyUpdate (st : ScreeningState) (u : NodeUpdate) : ScreeningState :=
  ⟨u.all_keywords.getD st.all_keywords,
   u.resume_text.getD st.resume_text,
   u.job_description_text.getD st.job_description_text,
   u.matching_keywords.getD st.matching_keywords,
   u.initial_decision.getD st.initial_decision,
   u.decision.getD st.decision,
   u.evaluation_summary.getD st.evaluation_summary,
   u.requirements_met.getD st.requirements_met,
   u.requirements_missing.getD st.requirements_missing,
   u.overall_score.getD st.overall_score,
   u.error.getD st.error⟩

/-- The initial state built inside `ResumeScreener.screen`. -/
def initState (all_keywords : List String)
    (resume_text job_description_text : String) : ScreeningState :=
  ⟨all_keywords, resume_text, job_description_text, [], "",
   JValue.str "", JValue.str "", JValue.arr [], JValue.arr [], none, ""⟩

/-- The `match_keywords(...)` call as the node observes it: the call may
raise (spaCy runs arbitrary model code), modelled by `Except.error`
carrying `str(e)`.  The non-raising instantiation is `realMatcher`. -/
def realMatcher (M : NLP) :
    String → List String → Except String (List String × String) :=
  fun r k => Except.ok (match_keywords M r k)

/-- `match_keywords_node` of `resume_screener.py`: skip when the state
already carries an error, otherwise publish the matcher's outputs, turning
a raised exception into an error entry. -/
def match_keywords_node
    (matcher : String → List String → Except String (List String × String))
    (st : ScreeningState) : NodeUpdate :=
  if st.error ≠ "" then NodeUpdate.empty
  else
    match matcher st.resume_text st.all_keywords with
    | Except.error e => NodeUpdate.ofError e
    | Except.ok (mk, d) => NodeUpdate.ofMatch mk d

/-- The fixed fallback dict built when `json.loads` rejects the model's
text (`except json.JSONDecodeError`). -/
def fallbackUpdate : NodeUpdate :=
  NodeUpdate.ofEval (JValue.str "Not Shortlisted")
    (JValue.str "Failed to get a structured evaluation from the AI model.")
    (JValue.arr []) (JValue.arr []) none

/-- Field extraction from a successfully parsed JSON value: `.get` with
per-key defaults.  Calling `.get` on a non-dict (the top-level value or a
non-dict `criteria_breakdown`) raises `AttributeError`, which escapes to
the node's outer handler. -/
def evalParse (j : JValue) : Except String NodeUpdate :=
  match j with
  | JValue.obj fs =>
      match jFindD fs "criteria_breakdown" (JValue.obj []) with
      | JValue.obj cfs =>
          Except.ok (NodeUpdate.ofEval
            (jFindD fs "decision" (JValue.str "Error: No Decision Provided"))
            (jFindD fs "evaluation_summary"
              (JValue.str "Error: No summary provided"))
            (jFindD cfs "requirements_met" (JValue.arr []))
            (jFindD cfs "requirements_missing" (JValue.arr []))
            (pyIntCoerce (jFindD fs "overall_score" JValue.null)))
      | _ => Except.error "AttributeError"
  | _ => Except.error "AttributeError"

/-- `evaluate_candidate_node` of `resume_screener.py`, parametrized by the
external model capability: `model st` is `Except.error msg` when the
`generate_content` call raises (transport failure), `Except.ok none` when
it returns text that `json.loads` rejects, and `Except.ok (some j)` when
the text parses as the JSON value `j`. -/
def evaluate_candidate_node
    (model : ScreeningState → Except String (Option JValue))
    (st : ScreeningState) : NodeUpdate :=
  if st.error ≠ "" then NodeUpdate.empty
  else
    match model st with
    | Except.error e => NodeUpdate.ofError e
    | Except.ok none => fallbackUpdate
    | Except.ok (some j) =>
        match evalParse j with
        | Except.error e => NodeUpdate.ofError e
        | Except.ok u => u

/-- The flattened result record returned by `ResumeScreener.screen`. -/
structure ScreeningResult where
  decision : JValue
  matching_keywords : List String
  evaluation_summary : JValue
  requirements_met : JValue
  requirements_missing : JValue
  overall_score : Option Int
  initial_decision : String
  total_keywords : Nat
  resume_filename : String

/-- The degraded record built by `screen`'s exception handler: decision
`"Error"`, the exception text as summary, and empty/default fields. -/
def errorRecord (msg : String) (all_keywords : List String) (fn : String) :
    ScreeningResult :=
  ⟨JValue.str "Error", [], JValue.str msg, JValue.arr [], JValue.arr [],
   none, "ERROR", all_keywords.length, fn⟩

/-- The final state of the compiled two-node workflow: `match_keywords`
then `evaluate_candidate`, each node's returned dict merged into the
state. -/
def screenFinal
    (matcher : String → List String → Except String (List String × String))
    (model : ScreeningState → Except String (Option JValue))
    (K : List String) (R J : String) : ScreeningState :=
  let st0 := initState K R J
  let st1 := applyUpdate st0 (match_keywords_node matcher st0)
  applyUpdate st1 (evaluate_candidate_node model st1)

/-- `ResumeScreener.screen`: run the workflow; a truthy final `error` is
raised and caught, producing the degraded record, and otherwise the final
state's fields are flattened into the result record. -/
def screen
    (matcher : String → List String → Except String (List String × String))
    (model : ScreeningState → Except String (Option JValue))
    (K : List String) (R J fn : String) : ScreeningResult :=
  let final := screenFinal matcher model K R J
  if final.error ≠ "" then errorRecord final.error K fn
  else
    ⟨final.decision, final.matching_keywords, final.evaluation_summary,
     final.requirements_met, final.requirements_missing,
     final.overall_score, final.initial_decision,
     final.all_keywords.length, fn⟩

/-- A stub model response used on closed inputs: a well-formed Shortlisted
adjudication. -/
def stubShortlistResp : ScreeningState → Except String (Option JValue) :=
  fun _ => Except.ok (some (JValue.obj
    [("decision", JValue.str "Shortlisted"),
     ("evaluation_summary", JValue.str "Strong fit."),
     ("criteria_breakdown", JValue.obj
        [("requirements_met", JValue.arr [JValue.str "python"]),
         ("requirements_missing", JValue.arr [])]),
     ("overall_score", JValue.num 80)]))

/-- The spec's classification of the match ratio (section 4.2 steps 3 and
4), written with exact rational arithmetic following the spec's words, for
comparison with the source's `initialDecisionOf`: `|keywords| = 0` is a
non-match (verdict FAIL); otherwise `ratio = 0` is FAIL, `0 < ratio < 0.3`
WEAK, `0.3 ≤ ratio < 0.6` MODERATE and `ratio ≥ 0.6` STRONG. -/
def ratioVerdictSpec (found total : Nat) : String :=
  if total = 0 then "FAIL - No keywords matched"
  else if (found : ℚ) / (total : ℚ) = 0 then "FAIL - No keywords matched"
  else if (found : ℚ) / (total : ℚ) < 3 / 10 then
    "WEAK - Low keyword match rate"
  else if (found : ℚ) / (total : ℚ) < 6 / 10 then
    "MODERATE - Moderate keyword match rate"
  else "STRONG - High keyword match rate"

/-- Modelled from the spec's words (section 4.2 step 2, first bullet): the
claim's trigger for the lemmatized branch is the keyword *containing
whitespace*; any other keyword is only lowercased and trimmed.  This is to
be compared with the source's `processKeyword`, whose trigger is
`len(keyword.split()) > 1`. -/
def processKeywordSpecWs (M : NLP) (kw : String) : String :=
  if kw.data.any Char.isWhitespace then preprocess_text M kw
  else pyStrip (pyLower kw)

/-- `keywordHit` with the spec-worded trigger of `processKeywordSpecWs`. -/
def keywordHitSpecWs (M : NLP) (processedResume : String) (kw : String) : Bool :=
  let pk := processKeywordSpecWs M kw
  if pk = "" ∨ pk = "EMPTY_PROCESSED_STRING" then false
  else reSearchWord pk processedResume

/-- `match_keywords` with the spec-worded trigger, for refutation. -/
def matchKeywordsSpecWs (M : NLP) (resume_text : String)
    (keywords : List String) : List String × String :=
  let processed_resume := preprocess_text M resume_text
  let keywords_found := keywords.filter (keywordHitSpecWs M processed_resume)
  (keywords_found, initialDecisionOf keywords_found.length keywords.length)

lemma initialDecisionOf_eq_ratioVerdict (f t : Nat) (h : f ≤ t) :
    initialDecisionOf f t = ratioVerdictSpec f t := by
  unfold initialDecisionOf ratioVerdictSpec
  rcases Nat.eq_zero_or_pos t with ht | ht
  · subst ht
    have hf : f = 0 := Nat.le_zero.mp h
    subst hf
    simp
  · have htQ : (0:ℚ) < (t:ℚ) := by exact_mod_cast ht
    have ht0 : t ≠ 0 := Nat.pos_iff_ne_zero.mp ht
    by_cases hf : f = 0
    · subst hf
      simp [ht0]
    · have hfQ : ¬ ((f:ℚ) / (t:ℚ) = 0) := by
        apply div_ne_zero
        · exact_mod_cast hf
        · exact ne_of_gt htQ
      have h3 : ((f:ℚ) / (t:ℚ) < 3 / 10) ↔ 10 * f < 3 * t := by
        rw [div_lt_div_iff₀ htQ (by norm_num : (0:ℚ) < 10)]
        constructor
        · intro hh
          have hcast : ((10 * f : Nat) : ℚ) < ((3 * t : Nat) : ℚ) := by
            push_cast
            linarith
          exact_mod_cast hcast
        · intro hh
          have hcast : ((10 * f : Nat) : ℚ) < ((3 * t : Nat) : ℚ) := by
            exact_mod_cast hh
          push_cast at hcast
          linarith
      have h6 : ((f:ℚ) / (t:ℚ) < 6 / 10) ↔ 10 * f < 6 * t := by
        rw [div_lt_div_iff₀ htQ (by norm_num : (0:ℚ) < 10)]
        constructor
        · intro hh
          have hcast : ((10 * f : Nat) : ℚ) < ((6 * t : Nat) : ℚ) := by
            push_cast
            linarith
          exact_mod_cast hcast
        · intro hh
          have hcast : ((10 * f : Nat) : ℚ) < ((6 * t : Nat) : ℚ) := by
            exact_mod_cast hh
          push_cast at hcast
          linarith
      simp only [if_neg hf, if_neg ht0, if_neg hfQ]
      by_cases h30 : 10 * f < 3 * t
      · simp [h30, h3.mpr h30]
      · have h30' : ¬ ((f:ℚ) / (t:ℚ) < 3 / 10) := fun hh => h30 (h3.mp hh)
        simp only [if_neg h30, if_neg h30']
        by_cases h60 : 10 * f < 6 * t
        · have h6' : (f:ℚ) / (t:ℚ) < 6 / 10 := h6.mpr h60
          have hns : ¬ (10 * f ≥ 6 * t) := by omega
          simp [hns, h6']
        · have hs : 10 * f ≥ 6 * t := by omega
          have h6' : ¬ ((f:ℚ) / (t:ℚ) < 6 / 10) := fun hh => h60 (h6.mp hh)
          simp [hs, h6']

/-- C1: the preliminary verdict of `match_keywords` is exactly one of the
four verdict strings, it equals the spec's exact-threshold classification
of `ratio = |matchedKeywords| / |K|` (FAIL at ratio 0, WEAK below 0.3,
MODERATE from 0.3 up to but excluding 0.6, STRONG from 0.6), and the empty
keyword list yields verdict FAIL with no matches and no division fault. -/
theorem c1_preliminary_verdict (M : NLP) (R : String) (K : List String) :
    (match_keywords M R K).2
      = ratioVerdictSpec (match_keywords M R K).1.length K.length
    ∧ ((match_keywords M R K).2 = "FAIL - No keywords matched"
       ∨ (match_keywords M R K).2 = "WEAK - Low keyword match rate"
       ∨ (match_keywords M R K).2 = "MODERATE - Moderate keyword match rate"
       ∨ (match_keywords M R K).2 = "STRONG - High keyword match rate")
    ∧ (K = [] → match_keywords M R K = ([], "FAIL - No keywords matched")) := by
  have hlen : (K.filter (keywordHit M (preprocess_text M R))).length ≤ K.length :=
    List.length_filter_le _ K
  refine ⟨?_, ?_, ?_⟩
  · show initialDecisionOf _ _ = _
    exact initialDecisionOf_eq_ratioVerdict _ _ hlen
  · show initialDecisionOf _ _ = _ ∨ initialDecisionOf _ _ = _
      ∨ initialDecisionOf _ _ = _ ∨ initialDecisionOf _ _ = _
    unfold initialDecisionOf
    split
    · exact Or.inl rfl
    · split
      · exact Or.inr (Or.inl rfl)
      · split
        · exact Or.inr (Or.inr (Or.inr rfl))
        · exact Or.inr (Or.inr (Or.inl rfl))
  · intro hK
    subst hK
    rfl

/-- Closed instance of C1 discharging its hypothesis: the empty keyword
list gives FAIL with no matched keywords. -/
theorem c1_witness :
    match_keywords idNLP "some resume text" [] =
      ([], "FAIL - No keywords matched") :=
  (c1_preliminary_verdict idNLP "some resume text" []).2.2 rfl

/-- C2: the matched-keyword list of `match_keywords` is a sublist of the
input keyword list `K`: every returned match is an exact element of the
original, unprocessed `K` (the original string is appended on a hit, not
its processed form), and the matches appear in the order the keywords were
checked, which is the input order of `K`. -/
theorem c2_matched_keywords_sublist (M : NLP) (R : String) (K : List String) :
    List.Sublist (match_keywords M R K).1 K :=
  List.filter_sublist K

/-- C7 counterexample: the keyword "running " (with a trailing space)
contains whitespace, yet the source processes it on the atomic branch
(lowercase and strip, giving "running") instead of normalizing it via the
Text Normalizer (which, under a lemmatizer mapping "running" to "run",
gives "run").  The two processed forms differ, and against the resume
"run fast" the source finds no match while the claim's whitespace-triggered
processing would match. -/
theorem c7_counterexample :
    ("running ".data.any Char.isWhitespace = true)
    ∧ processKeyword lemNLP "running " = "running"
    ∧ preprocess_text lemNLP "running " = "run"
    ∧ ("running" : String) ≠ "run"
    ∧ (match_keywords lemNLP "run fast" ["running "]).1 = []
    ∧ (matchKeywordsSpecWs lemNLP "run fast" ["running "]).1 = ["running "] :=
  ⟨rfl, rfl, rfl, by decide, rfl, rfl⟩

/-- C7 (amended): the branch trigger is the number of whitespace-delimited
tokens, not the presence of whitespace: a keyword that `split()` cuts into
more than one token is normalized via the Text Normalizer; a keyword with
at most one token — even one carrying leading or trailing whitespace — is
only lowercased and stripped, never lemmatized; and a keyword whose
processed form is empty or equal to the Normalizer's sentinel is silently
skipped, contributing no match (it is dropped from the matched list and
never tested against the resume). -/
theorem c7_keyword_processing (M : NLP) (kw R : String)
    (K1 K2 : List String) :
    ((pySplit kw).length > 1 → processKeyword M kw = preprocess_text M kw)
    ∧ ((pySplit kw).length ≤ 1 → processKeyword M kw = pyStrip (pyLower kw))
    ∧ (processKeyword M kw = "" ∨ processKeyword M kw = "EMPTY_PROCESSED_STRING" →
        (match_keywords M R (K1 ++ kw :: K2)).1
          = (match_keywords M R (K1 ++ K2)).1) := by
  refine ⟨?_, ?_, ?_⟩
  · intro h
    unfold processKeyword
    rw [if_pos h]
  · intro h
    unfold processKeyword
    rw [if_neg (by omega)]
  · intro h
    have hhit : keywordHit M (preprocess_text M R) kw = false := by
      unfold keywordHit
      exact if_pos h
    show (K1 ++ kw :: K2).filter _ = (K1 ++ K2).filter _
    simp [List.filter_append, List.filter_cons, hhit]

/-- Closed instances of C7's amended clauses: a two-token keyword takes the
normalizer branch, a plain atomic keyword is only lowercased and stripped,
and a keyword whose processed form is empty (here the empty keyword) is
skipped without affecting the matched list. -/
theorem c7_witness :
    processKeyword idNLP "software development"
      = preprocess_text idNLP "software development"
    ∧ processKeyword idNLP "OAuth2" = pyStrip (pyLower "OAuth2")
    ∧ (match_keywords idNLP "python developer" (["python"] ++ "" :: [])).1
      = (match_keywords idNLP "python developer" (["python"] ++ [])).1 :=
  ⟨(c7_keyword_processing idNLP "software development" "r" [] []).1 (by decide),
   (c7_keyword_processing idNLP "OAuth2" "r" [] []).2.1 (by decide),
   (c7_keyword_processing idNLP "" "python developer" ["python"] []).2.2
     (Or.inl rfl)⟩

/-- C3 counterexample: a model response that parses as JSON but lacks every
required key (the empty object `{}`) does not produce the fixed fallback
outcome: the stored decision is the per-key default
"Error: No Decision Provided", not the fallback's "Not Shortlisted". -/
theorem c3_counterexample :
    (evaluate_candidate_node (fun _ => Except.ok (some (JValue.obj [])))
        (initState ["k"] "resume" "jd")).decision
      = some (JValue.str "Error: No Decision Provided")
    ∧ fallbackUpdate.decision = some (JValue.str "Not Shortlisted")
    ∧ JValue.str "Error: No Decision Provided" ≠ JValue.str "Not Shortlisted" :=
  ⟨rfl, rfl, by intro h; injection h with h2; exact absurd h2 (by decide)⟩

/-- C3 (amended): if the model's response text fails to parse as JSON, the
node produces the fixed fallback outcome — decision "Not Shortlisted", the
generic failure-summary string, empty requirement lists and a null score —
and this is a successful node outcome (no error entry, and the run's final
decision is "Not Shortlisted", not "Error").  If the response parses but
required keys are absent, the node instead fills each missing key with its
own default (decision "Error: No Decision Provided", summary
"Error: No summary provided", empty lists, null score), still without an
error entry. -/
theorem c3_adjudication_fallback
    (model : ScreeningState → Except String (Option JValue))
    (st : ScreeningState) (M : NLP) (K : List String) (R J fn : String) :
    (st.error = "" → model st = Except.ok none →
        evaluate_candidate_node model st = fallbackUpdate)
    ∧ (st.error = "" → model st = Except.ok (some (JValue.obj [])) →
        evaluate_candidate_node model st
          = NodeUpdate.ofEval (JValue.str "Error: No Decision Provided")
              (JValue.str "Error: No summary provided")
              (JValue.arr []) (JValue.arr []) none)
    ∧ (screen (realMatcher M) (fun _ => Except.ok none) K R J fn).decision
        = JValue.str "Not Shortlisted" := by
  refine ⟨?_, ?_, ?_⟩
  · intro he hm
    unfold evaluate_candidate_node
    rw [if_neg (by simp [he]), hm]
  · intro he hm
    unfold evaluate_candidate_node
    rw [if_neg (by simp [he]), hm]
    rfl
  · rfl

/-- Closed instances of C3's amended clauses, discharging the hypotheses:
an unparsable response gives the fixed fallback dict, the empty JSON object
gives the per-key defaults, and a run whose model response is unparsable
ends with decision "Not Shortlisted". -/
theorem c3_witness :
    evaluate_candidate_node (fun _ => Except.ok none)
        (initState ["k"] "resume" "jd") = fallbackUpdate
    ∧ evaluate_candidate_node (fun _ => Except.ok (some (JValue.obj [])))
        (initState ["k"] "resume" "jd")
      = NodeUpdate.ofEval (JValue.str "Error: No Decision Provided")
          (JValue.str "Error: No summary provided")
          (JValue.arr []) (JValue.arr []) none
    ∧ (screen (realMatcher idNLP) (fun _ => Except.ok none)
        ["k"] "resume" "jd" "cv.pdf").decision
      = JValue.str "Not Shortlisted" :=
  ⟨(c3_adjudication_fallback (fun _ => Except.ok none)
      (initState ["k"] "resume" "jd") idNLP ["k"] "resume" "jd" "cv.pdf").1
      rfl rfl,
   (c3_adjudication_fallback (fun _ => Except.ok (some (JValue.obj [])))
      (initState ["k"] "resume" "jd") idNLP ["k"] "resume" "jd" "cv.pdf").2.1
      rfl rfl,
   (c3_adjudication_fallback (fun _ => Except.ok none)
      (initState ["k"] "resume" "jd") idNLP ["k"] "resume" "jd" "cv.pdf").2.2⟩

/-- C4 counterexample: a numeric but out-of-range score is kept as-is, not
coerced to null: a response carrying `overall_score = 150` stores 150. -/
theorem c4_counterexample :
    (evaluate_candidate_node
        (fun _ => Except.ok (some (JValue.obj
          [("overall_score", JValue.num 150)])))
        (initState ["k"] "resume" "jd")).overall_score
      = some (some 150)
    ∧ ¬ ((150 : Int) ≤ 100) :=
  ⟨rfl, by decide⟩

/-- C4 (amended): the stored `overall_score` is exactly the result of
Python's `int(...)` coercion of the response's `overall_score` value (with
absent keys defaulting to null): a non-numeric or unconvertible value
(null, list, dict, non-numeric string) becomes null, while any convertible
numeric value is kept unchanged — there is no range validation, so an
out-of-range score such as 150 is stored rather than nulled or clamped.  A
malformed score alone never fails the adjudication: the node's result
carries no error entry. -/
theorem c4_score_coercion
    (model : ScreeningState → Except String (Option JValue))
    (st : ScreeningState) (fs : List (String × JValue))
    (h1 : st.error = "")
    (h2 : model st = Except.ok (some (JValue.obj fs)))
    (h3 : ∃ cfs, jFindD fs "criteria_breakdown" (JValue.obj [])
            = JValue.obj cfs) :
    (evaluate_candidate_node model st).overall_score
      = some (pyIntCoerce (jFindD fs "overall_score" JValue.null))
    ∧ (evaluate_candidate_node model st).error = none := by
  obtain ⟨cfs, hc⟩ := h3
  have hp : evalParse (JValue.obj fs)
      = Except.ok (NodeUpdate.ofEval
          (jFindD fs "decision" (JValue.str "Error: No Decision Provided"))
          (jFindD fs "evaluation_summary"
            (JValue.str "Error: No summary provided"))
          (jFindD cfs "requirements_met" (JValue.arr []))
          (jFindD cfs "requirements_missing" (JValue.arr []))
          (pyIntCoerce (jFindD fs "overall_score" JValue.null))) := by
    simp only [evalParse]
    rw [hc]
  constructor <;>
    simp [evaluate_candidate_node, h1, h2, hp, NodeUpdate.ofEval]

/-- Closed instance of C4's amended claim, discharging the hypotheses: a
response whose `overall_score` is the non-numeric string "N/A" stores a
null score and sets no error entry. -/
theorem c4_witness :
    (evaluate_candidate_node
        (fun _ => Except.ok (some (JValue.obj
          [("overall_score", JValue.str "N/A")])))
        (initState ["k"] "resume" "jd")).overall_score
      = some (pyIntCoerce (jFindD [("overall_score", JValue.str "N/A")]
          "overall_score" JValue.null))
    ∧ (evaluate_candidate_node
        (fun _ => Except.ok (some (JValue.obj
          [("overall_score", JValue.str "N/A")])))
        (initState ["k"] "resume" "jd")).error = none :=
  c4_score_coercion
    (fun _ => Except.ok (some (JValue.obj
      [("overall_score", JValue.str "N/A")])))
    (initState ["k"] "resume" "jd")
    [("overall_score", JValue.str "N/A")]
    rfl rfl ⟨[], rfl⟩

/-- C6 counterexample: a transport failure whose exception string is empty
(as with a bare `Exception()`) does not yield decision "Error": the node
stores the error entry `""`, which is falsy at the final check, so `screen`
skips the raise and returns the initial empty decision with an empty
summary. -/
theorem c6_counterexample :
    (screen (realMatcher idNLP) (fun _ => Except.error "")
        ["python"] "python developer" "jd" "cv.pdf").decision
      = JValue.str ""
    ∧ (screen (realMatcher idNLP) (fun _ => Except.error "")
        ["python"] "python developer" "jd" "cv.pdf").evaluation_summary
      = JValue.str ""
    ∧ JValue.str "" ≠ JValue.str "Error" :=
  ⟨rfl, rfl, by intro h; injection h with h2; exact absurd h2 (by decide)⟩

/-- C6 (amended): if the external model call raises a transport failure
whose exception message is non-empty, `screen` returns the degraded
record: decision "Error", null overallScore, and the exception text as the
non-empty evaluationSummary; no exception ever crosses the core boundary
(the embedding of `screen` is a total function, so every run returns a
result record).  For the degenerate exception whose string is empty, the
captured error entry `""` is falsy at the final check, so the run instead
returns a record carrying the initial empty decision and empty summary —
not "Error". -/
theorem c6_transport_failure (M : NLP) (K : List String)
    (R J fn msg : String) :
    (msg ≠ "" →
      screen (realMatcher M) (fun _ => Except.error msg) K R J fn
        = errorRecord msg K fn
      ∧ (screen (realMatcher M) (fun _ => Except.error msg)
          K R J fn).decision = JValue.str "Error"
      ∧ (screen (realMatcher M) (fun _ => Except.error msg)
          K R J fn).overall_score = none
      ∧ (screen (realMatcher M) (fun _ => Except.error msg)
          K R J fn).evaluation_summary ≠ JValue.str "")
    ∧ (msg = "" →
      (screen (realMatcher M) (fun _ => Except.error msg)
          K R J fn).decision = JValue.str ""
      ∧ (screen (realMatcher M) (fun _ => Except.error msg)
          K R J fn).evaluation_summary = JValue.str "") := by
  constructor
  · intro h
    have herr : (screenFinal (realMatcher M) (fun _ => Except.error msg)
        K R J).error = msg := rfl
    have hrec : screen (realMatcher M) (fun _ => Except.error msg) K R J fn
        = errorRecord msg K fn := by
      simp only [screen]
      rw [herr, if_pos h]
    refine ⟨hrec, ?_, ?_, ?_⟩
    · rw [hrec]
      rfl
    · rw [hrec]
      rfl
    · rw [hrec]
      show JValue.str msg ≠ JValue.str ""
      intro hh
      injection hh with h2
      exact h h2
  · intro h
    subst h
    exact ⟨rfl, rfl⟩

/-- Closed instances of C6's amended clauses, discharging the hypotheses at
the non-empty message "connection reset" and at the empty message. -/
theorem c6_witness :
    screen (realMatcher idNLP) (fun _ => Except.error "connection reset")
        ["python"] "python developer" "jd" "cv.pdf"
      = errorRecord "connection reset" ["python"] "cv.pdf"
    ∧ (screen (realMatcher idNLP)
        (fun _ => Except.error "connection reset")
        ["python"] "python developer" "jd" "cv.pdf").evaluation_summary
      ≠ JValue.str ""
    ∧ (screen (realMatcher idNLP) (fun _ => Except.error "")
        ["python"] "python developer" "jd" "cv.pdf").decision
      = JValue.str "" :=
  ⟨((c6_transport_failure idNLP ["python"] "python developer" "jd"
      "cv.pdf" "connection reset").1 (by decide)).1,
   ((c6_transport_failure idNLP ["python"] "python developer" "jd"
      "cv.pdf" "connection reset").1 (by decide)).2.2.2,
   ((c6_transport_failure idNLP ["python"] "python developer" "jd"
      "cv.pdf" "").2 rfl).1⟩

lemma wordCharAt_true_iff (t : List Char)
    (hw : ∀ c ∈ t, isWordChar c = true) (j : Nat) :
    wordCharAt t j = true ↔ j < t.length := by
  unfold wordCharAt
  cases hj : t[j]? with
  | none =>
      have := List.getElem?_eq_none_iff.mp hj
      simp
      omega
  | some c =>
      have hmem : c ∈ t := List.getElem?_mem hj
      have hlt : j < t.length := (List.getElem?_eq_some.mp hj).1
      simp [hw c hmem, hlt]

lemma boundaryAt_allWord (t : List Char)
    (hw : ∀ c ∈ t, isWordChar c = true) (j : Nat) :
    boundaryAt t j = true ↔ (0 < t.length ∧ (j = 0 ∨ j = t.length)) := by
  unfold boundaryAt
  rw [bne_iff_ne]
  by_cases hj : j = 0
  · subst hj
    rw [if_pos rfl]
    constructor
    · intro hne
      have hz : wordCharAt t 0 = true := by
        cases hW : wordCharAt t 0
        · exact absurd hW.symm hne
        · rfl
      have := (wordCharAt_true_iff t hw 0).mp hz
      exact ⟨this, Or.inl rfl⟩
    · rintro ⟨hlen, _⟩
      have hz : wordCharAt t 0 = true := (wordCharAt_true_iff t hw 0).mpr hlen
      rw [hz]
      exact fun hh => by cases hh
  · rw [if_neg hj]
    constructor
    · intro hne
      rcases Nat.lt_trichotomy j t.length with h1 | h1 | h1
      · exfalso
        have hl : wordCharAt t (j - 1) = true :=
          (wordCharAt_true_iff t hw (j - 1)).mpr (by omega)
        have hr : wordCharAt t j = true :=
          (wordCharAt_true_iff t hw j).mpr h1
        rw [hl, hr] at hne
        exact hne rfl
      · exact ⟨by omega, Or.inr h1⟩
      · exfalso
        have hl : wordCharAt t (j - 1) = false := by
          cases hW : wordCharAt t (j - 1)
          · rfl
          · exfalso
            have := (wordCharAt_true_iff t hw (j - 1)).mp hW
            omega
        have hr : wordCharAt t j = false := by
          cases hW : wordCharAt t j
          · rfl
          · exfalso
            have := (wordCharAt_true_iff t hw j).mp hW
            omega
        rw [hl, hr] at hne
        exact hne rfl
    · rintro ⟨hlen, hor⟩
      rcases hor with h0 | hL
      · exact absurd h0 hj
      · subst hL
        have hl : wordCharAt t (t.length - 1) = true :=
          (wordCharAt_true_iff t hw (t.length - 1)).mpr (by omega)
        have hr : wordCharAt t t.length = false := by
          cases hW : wordCharAt t t.length
          · rfl
          · exfalso
            have := (wordCharAt_true_iff t hw t.length).mp hW
            omega
        rw [hl, hr]
        exact fun hh => by cases hh

/-- On a text consisting solely of word characters, the word-boundary
positions are exactly its two ends, so a nonempty boundary-delimited
pattern occurs iff it equals the whole text. -/
lemma reSearchB_allWord (pat t : List Char)
    (hw : ∀ c ∈ t, isWordChar c = true) (hp : pat ≠ []) :
    reSearchB pat t = true ↔ pat = t := by
  unfold reSearchB
  rw [List.any_eq_true]
  have hlen0 : 0 < pat.length := List.length_pos.mpr hp
  constructor
  · rintro ⟨i, hmem, hcond⟩
    rw [List.mem_range] at hmem
    simp only [Bool.and_eq_true] at hcond
    obtain ⟨⟨h1, h2⟩, h3⟩ := hcond
    unfold matchAt at h1
    rw [beq_iff_eq] at h1
    have hb2 := (boundaryAt_allWord t hw i).mp h2
    have hb3 := (boundaryAt_allWord t hw (i + pat.length)).mp h3
    have hi0 : i = 0 := by
      rcases hb2.2 with h | h
      · exact h
      · exfalso
        rw [h, List.drop_length, List.take_nil] at h1
        exact hp h1.symm
    subst hi0
    have hL : pat.length = t.length := by
      rcases hb3.2 with h | h
      · omega
      · omega
    rw [List.drop_zero, hL, List.take_length] at h1
    exact h1.symm
  · intro hEq
    subst hEq
    refine ⟨0, ?_, ?_⟩
    · rw [List.mem_range]
      omega
    · have hm : matchAt pat pat 0 = true := by
        unfold matchAt
        rw [List.drop_zero, List.take_length, beq_self_eq_true]
      have hb0 : boundaryAt pat 0 = true :=
        (boundaryAt_allWord pat hw 0).mpr ⟨hlen0, Or.inl rfl⟩
      have hbL : boundaryAt pat (0 + pat.length) = true := by
        rw [Nat.zero_add]
        exact (boundaryAt_allWord pat hw pat.length).mpr ⟨hlen0, Or.inr rfl⟩
      rw [hm, hb0, hbL]
      rfl

lemma sentinel_allWord :
    ∀ c ∈ ("EMPTY_PROCESSED_STRING" : String).data, isWordChar c = true := by
  decide

/-- No keyword can ever be counted as found in the sentinel resume text:
keywords whose processed form is empty or the sentinel itself are skipped
by the source's explicit check, and any other processed form differs from
the sentinel, hence cannot occur boundary-delimited inside a text whose
characters are all word characters. -/
lemma keywordHit_sentinel (M : NLP) (kw : String) :
    keywordHit M "EMPTY_PROCESSED_STRING" kw = false := by
  unfold keywordHit
  by_cases h : processKeyword M kw = ""
      ∨ processKeyword M kw = "EMPTY_PROCESSED_STRING"
  · rw [if_pos h]
  · rw [if_neg h]
    push_neg at h
    obtain ⟨h1, h2⟩ := h
    unfold reSearchWord
    cases hS : reSearchB (processKeyword M kw).data
        ("EMPTY_PROCESSED_STRING" : String).data
    · rfl
    · exfalso
      have hpd : (processKeyword M kw).data ≠ [] := by
        intro hnil
        apply h1
        have he : processKeyword M kw
            = String.mk ((processKeyword M kw).data) := rfl
        rw [hnil] at he
        exact he
      have hdata :=
        (reSearchB_allWord (processKeyword M kw).data
          ("EMPTY_PROCESSED_STRING" : String).data sentinel_allWord hpd).mp hS
      apply h2
      have he : processKeyword M kw
          = String.mk ((processKeyword M kw).data) := rfl
      rw [hdata] at he
      exact he

/-- C8: when the resume text normalizes to empty content, `preprocess_text`
returns the distinguished sentinel, and `match_keywords` then matches
nothing: for every keyword list of non-empty keywords the matched list is
empty (and the verdict is FAIL) — in particular a keyword whose own
processed form equals the sentinel is skipped rather than matched. -/
theorem c8_empty_resume_never_matches (M : NLP) (R : String)
    (K : List String)
    (h : pyStrip (joinSpaces (M.cleanLemmas (pyLower R))) = "")
    (_hK : ∀ kw ∈ K, kw ≠ "") :
    preprocess_text M R = "EMPTY_PROCESSED_STRING"
    ∧ (match_keywords M R K).1 = []
    ∧ (match_keywords M R K).2 = "FAIL - No keywords matched" := by
  have hpre : preprocess_text M R = "EMPTY_PROCESSED_STRING" := by
    simp only [preprocess_text]
    rw [h]
    rfl
  have hfil : K.filter (keywordHit M (preprocess_text M R)) = [] := by
    rw [hpre]
    apply List.filter_eq_nil_iff.mpr
    intro kw _
    simp [keywordHit_sentinel M kw]
  refine ⟨hpre, ?_, ?_⟩
  · show K.filter (keywordHit M (preprocess_text M R)) = []
    exact hfil
  · show initialDecisionOf
      (K.filter (keywordHit M (preprocess_text M R))).length K.length = _
    rw [hfil]
    rfl

/-- Closed instance of C8, discharging its hypotheses: a resume text that
is all whitespace and punctuation normalizes to empty under the concrete
pipeline, and neither an ordinary keyword nor the literal sentinel keyword
is matched. -/
theorem c8_witness :
    preprocess_text idNLP " " = "EMPTY_PROCESSED_STRING"
    ∧ (match_keywords idNLP " "
        ["python", "EMPTY_PROCESSED_STRING"]).1 = []
    ∧ (match_keywords idNLP " "
        ["python", "EMPTY_PROCESSED_STRING"]).2
      = "FAIL - No keywords matched" :=
  c8_empty_resume_never_matches idNLP " "
    ["python", "EMPTY_PROCESSED_STRING"] (by decide) (by decide)

lemma match_node_untouched_fields
    (matcher : String → List String → Except String (List String × String))
    (st : ScreeningState) :
    (match_keywords_node matcher st).all_keywords = none
    ∧ (match_keywords_node matcher st).resume_text = none
    ∧ (match_keywords_node matcher st).job_description_text = none
    ∧ (match_keywords_node matcher st).decision = none
    ∧ (match_keywords_node matcher st).evaluation_summary = none
    ∧ (match_keywords_node matcher st).requirements_met = none
    ∧ (match_keywords_node matcher st).requirements_missing = none
    ∧ (match_keywords_node matcher st).overall_score = none := by
  unfold match_keywords_node
  split
  · exact ⟨rfl, rfl, rfl, rfl, rfl, rfl, rfl, rfl⟩
  · split
    · exact ⟨rfl, rfl, rfl, rfl, rfl, rfl, rfl, rfl⟩
    · exact ⟨rfl, rfl, rfl, rfl, rfl, rfl, rfl, rfl⟩

lemma evalParse_ok_untouched (j : JValue) (u : NodeUpdate)
    (h : evalParse j = Except.ok u) :
    u.all_keywords = none ∧ u.resume_text = none
    ∧ u.job_description_text = none ∧ u.matching_keywords = none
    ∧ u.initial_decision = none := by
  cases j with
  | obj fs =>
      simp only [evalParse] at h
      revert h
      split
      · intro h
        injection h with h
        rw [← h]
        exact ⟨rfl, rfl, rfl, rfl, rfl⟩
      · intro h
        cases h
  | null => simp only [evalParse] at h; cases h
  | bool b => simp only [evalParse] at h; cases h
  | num n => simp only [evalParse] at h; cases h
  | str s => simp only [evalParse] at h; cases h
  | arr xs => simp only [evalParse] at h; cases h

lemma eval_node_untouched_fields
    (model : ScreeningState → Except String (Option JValue))
    (st : ScreeningState) :
    (evaluate_candidate_node model st).all_keywords = none
    ∧ (evaluate_candidate_node model st).resume_text = none
    ∧ (evaluate_candidate_node model st).job_description_text = none
    ∧ (evaluate_candidate_node model st).matching_keywords = none
    ∧ (evaluate_candidate_node model st).initial_decision = none := by
  unfold evaluate_candidate_node
  split
  · exact ⟨rfl, rfl, rfl, rfl, rfl⟩
  · split
    · exact ⟨rfl, rfl, rfl, rfl, rfl⟩
    · exact ⟨rfl, rfl, rfl, rfl, rfl⟩
    · split
      · exact ⟨rfl, rfl, rfl, rfl, rfl⟩
      · rename_i u heq
        exact evalParse_ok_untouched _ u heq

/-- C9: error short-circuiting.  (1) If the state already carries an error,
`evaluate_candidate_node` returns the empty update immediately, and its
result does not depend on the external model capability (the model is not
consulted).  (2) If the matching call fails, `match_keywords_node`
publishes only the error entry — no partial matched keywords or
preliminary verdict.  (3) Whenever the final state carries an error, the
run's result is the degraded record: decision "Error" with empty/default
downstream fields. -/
theorem c9_error_short_circuit :
    (∀ (model model' : ScreeningState → Except String (Option JValue))
        (st : ScreeningState), st.error ≠ "" →
        evaluate_candidate_node model st = NodeUpdate.empty
        ∧ evaluate_candidate_node model st = evaluate_candidate_node model' st)
    ∧ (∀ (matcher : String → List String →
          Except String (List String × String))
        (st : ScreeningState) (e : String), st.error = "" →
        matcher st.resume_text st.all_keywords = Except.error e →
        match_keywords_node matcher st = NodeUpdate.ofError e)
    ∧ (∀ (matcher : String → List String →
          Except String (List String × String))
        (model : ScreeningState → Except String (Option JValue))
        (K : List String) (R J fn : String),
        (screenFinal matcher model K R J).error ≠ "" →
        screen matcher model K R J fn
          = errorRecord (screenFinal matcher model K R J).error K fn) := by
  refine ⟨?_, ?_, ?_⟩
  · intro model model' st h
    constructor
    · unfold evaluate_candidate_node
      rw [if_pos h]
    · unfold evaluate_candidate_node
      rw [if_pos h, if_pos h]
  · intro matcher st e h1 h2
    unfold match_keywords_node
    rw [if_neg (by simp [h1]), h2]
  · intro matcher model K R J fn h
    simp only [screen]
    rw [if_pos h]

/-- Closed instances of C9's three clauses, discharging the hypotheses on a
state carrying an error, a failing matcher, and a run whose matching stage
failed. -/
theorem c9_witness :
    evaluate_candidate_node stubShortlistResp
        (applyUpdate (initState ["k"] "resume" "jd")
          (NodeUpdate.ofError "previous failure")) = NodeUpdate.empty
    ∧ evaluate_candidate_node stubShortlistResp
        (applyUpdate (initState ["k"] "resume" "jd")
          (NodeUpdate.ofError "previous failure"))
      = evaluate_candidate_node (fun _ => Except.error "late failure")
        (applyUpdate (initState ["k"] "resume" "jd")
          (NodeUpdate.ofError "previous failure"))
    ∧ match_keywords_node (fun _ _ => Except.error "match failure")
        (initState ["k"] "resume" "jd") = NodeUpdate.ofError "match failure"
    ∧ screen (fun _ _ => Except.error "match failure") stubShortlistResp
        ["k"] "resume" "jd" "cv.pdf"
      = errorRecord (screenFinal (fun _ _ => Except.error "match failure")
          stubShortlistResp ["k"] "resume" "jd").error ["k"] "cv.pdf" :=
  ⟨(c9_error_short_circuit.1 stubShortlistResp
      (fun _ => Except.error "late failure")
      (applyUpdate (initState ["k"] "resume" "jd")
        (NodeUpdate.ofError "previous failure")) (by decide)).1,
   (c9_error_short_circuit.1 stubShortlistResp
      (fun _ => Except.error "late failure")
      (applyUpdate (initState ["k"] "resume" "jd")
        (NodeUpdate.ofError "previous failure")) (by decide)).2,
   c9_error_short_circuit.2.1 (fun _ _ => Except.error "match failure")
      (initState ["k"] "resume" "jd") "match failure" rfl rfl,
   c9_error_short_circuit.2.2 (fun _ _ => Except.error "match failure")
      stubShortlistResp ["k"] "resume" "jd" "cv.pdf" (by decide)⟩

lemma applyUpdate_proj (st : ScreeningState) (u : NodeUpdate) :
    (applyUpdate st u).all_keywords = u.all_keywords.getD st.all_keywords
    ∧ (applyUpdate st u).resume_text = u.resume_text.getD st.resume_text
    ∧ (applyUpdate st u).job_description_text
      = u.job_description_text.getD st.job_description_text
    ∧ (applyUpdate st u).matching_keywords
      = u.matching_keywords.getD st.matching_keywords
    ∧ (applyUpdate st u).initial_decision
      = u.initial_decision.getD st.initial_decision :=
  ⟨rfl, rfl, rfl, rfl, rfl⟩

/-- C10: frame conditions of the two stages.  (1) The dict returned by
`match_keywords_node` never carries the input fields, the adjudication
fields or the score — only its designated outputs (matched keywords,
preliminary verdict, or an error entry) can be present.  (2) The dict
returned by `evaluate_candidate_node` never carries the input fields nor
the stage-1 outputs `matching_keywords` / `initial_decision`.  (3) Through
the whole workflow the inputs `all_keywords`, `resume_text` and
`job_description_text` of the final state equal their initial values, and
the final `matching_keywords` / `initial_decision` are exactly those of the
post-stage-1 state — stage 2 never rewrites them.  (4) On an error-free
run, result assembly copies `matching_keywords` and `initial_decision`
unchanged from the final state. -/
theorem c10_frame :
    (∀ (matcher : String → List String →
          Except String (List String × String)) (st : ScreeningState),
        (match_keywords_node matcher st).all_keywords = none
        ∧ (match_keywords_node matcher st).resume_text = none
        ∧ (match_keywords_node matcher st).job_description_text = none
        ∧ (match_keywords_node matcher st).decision = none
        ∧ (match_keywords_node matcher st).evaluation_summary = none
        ∧ (match_keywords_node matcher st).requirements_met = none
        ∧ (match_keywords_node matcher st).requirements_missing = none
        ∧ (match_keywords_node matcher st).overall_score = none)
    ∧ (∀ (model : ScreeningState → Except String (Option JValue))
        (st : ScreeningState),
        (evaluate_candidate_node model st).all_keywords = none
        ∧ (evaluate_candidate_node model st).resume_text = none
        ∧ (evaluate_candidate_node model st).job_description_text = none
        ∧ (evaluate_candidate_node model st).matching_keywords = none
        ∧ (evaluate_candidate_node model st).initial_decision = none)
    ∧ (∀ (matcher : String → List String →
          Except String (List String × String))
        (model : ScreeningState → Except String (Option JValue))
        (K : List String) (R J : String),
        (screenFinal matcher model K R J).all_keywords = K
        ∧ (screenFinal matcher model K R J).resume_text = R
        ∧ (screenFinal matcher model K R J).job_description_text = J
        ∧ (screenFinal matcher model K R J).matching_keywords
          = (applyUpdate (initState K R J)
              (match_keywords_node matcher (initState K R J))).matching_keywords
        ∧ (screenFinal matcher model K R J).initial_decision
          = (applyUpdate (initState K R J)
              (match_keywords_node matcher (initState K R J))).initial_decision)
    ∧ (∀ (matcher : String → List String →
          Except String (List String × String))
        (model : ScreeningState → Except String (Option JValue))
        (K : List String) (R J fn : String),
        (screenFinal matcher model K R J).error = "" →
        (screen matcher model K R J fn).matching_keywords
          = (screenFinal matcher model K R J).matching_keywords
        ∧ (screen matcher model K R J fn).initial_decision
          = (screenFinal matcher model K R J).initial_decision) := by
  refine ⟨match_node_untouched_fields, eval_node_untouched_fields, ?_, ?_⟩
  · intro matcher model K R J
    obtain ⟨m1, m2, m3, _, _, _, _, _⟩ :=
      match_node_untouched_fields matcher (initState K R J)
    obtain ⟨e1, e2, e3, e4, e5⟩ :=
      eval_node_untouched_fields model
        (applyUpdate (initState K R J)
          (match_keywords_node matcher (initState K R J)))
    refine ⟨?_, ?_, ?_, ?_, ?_⟩
    · simp only [screenFinal, applyUpdate_proj, e1, m1, Option.getD_none]
      rfl
    · simp only [screenFinal, applyUpdate_proj, e2, m2, Option.getD_none]
      rfl
    · simp only [screenFinal, applyUpdate_proj, e3, m3, Option.getD_none]
      rfl
    · simp only [screenFinal, applyUpdate_proj, e4, Option.getD_none]
    · simp only [screenFinal, applyUpdate_proj, e5, Option.getD_none]
  · intro matcher model K R J fn h
    constructor
    · simp [screen, h]
    · simp [screen, h]

/-- Closed instances of C10's clauses: the stage-1 dict carries no
adjudication decision, the stage-2 dict carries no matched keywords, the
final state keeps the input resume text, and on an error-free run the
result copies the stage outputs unchanged. -/
theorem c10_witness :
    (match_keywords_node (realMatcher idNLP)
        (initState ["python"] "python dev" "jd")).decision = none
    ∧ (evaluate_candidate_node stubShortlistResp
        (initState ["python"] "python dev" "jd")).matching_keywords = none
    ∧ (screenFinal (realMatcher idNLP) stubShortlistResp
        ["python"] "python dev" "jd").resume_text = "python dev"
    ∧ (screen (realMatcher idNLP) stubShortlistResp
        ["python"] "python dev" "jd" "cv.pdf").matching_keywords
      = (screenFinal (realMatcher idNLP) stubShortlistResp
          ["python"] "python dev" "jd").matching_keywords
    ∧ (screen (realMatcher idNLP) stubShortlistResp
        ["python"] "python dev" "jd" "cv.pdf").initial_decision
      = (screenFinal (realMatcher idNLP) stubShortlistResp
          ["python"] "python dev" "jd").initial_decision :=
  ⟨(c10_frame.1 (realMatcher idNLP)
      (initState ["python"] "python dev" "jd")).2.2.2.1,
   (c10_frame.2.1 stubShortlistResp
      (initState ["python"] "python dev" "jd")).2.2.2.1,
   (c10_frame.2.2.1 (realMatcher idNLP) stubShortlistResp
      ["python"] "python dev" "jd").2.1,
   (c10_frame.2.2.2 (realMatcher idNLP) stubShortlistResp
      ["python"] "python dev" "jd" "cv.pdf" (by decide)).1,
   (c10_frame.2.2.2 (realMatcher idNLP) stubShortlistResp
      ["python"] "python dev" "jd" "cv.pdf" (by decide)).2⟩
